import Mathlib

/-!
Shallow embedding of `geopandas/geoseries.py` (the `GeoSeries` class and its
module helpers) together with the narrow interfaces of its external
collaborators, and proofs of the specified properties.

Modelling conventions:
* A geometry handle (shapely `BaseGeometry`) is the inductive `Geom`; its
  coordinates are exact integers (the structural claims verified here do not
  depend on floating-point values).
* A cell of a pandas object column is a `Value`: a geometry handle, the
  missing marker (`None`), or some other non-geometry scalar (`other n`,
  standing for e.g. a Python int).
* A pandas `Series` of objects is a `PlainSeries`; a `GeoSeries` additionally
  carries `crs` and the cached-spatial-index flag `sindex`
  (`true` = a cached spatial index is present, `false` = invalidated).
* Python exceptions are modelled with `Except GeoError`.
-/

/-- A coordinate point, as stored by the external geometry library. -/
abbrev Coord := Int × Int

/-- A vector geometry handle (shapely `BaseGeometry` and its subclasses):
the bare empty `BaseGeometry()`, a point, a linestring, or a polygon given by
its exterior ring. -/
inductive Geom
  | empty
  | point (c : Coord)
  | lineString (pts : List Coord)
  | polygon (ring : List Coord)
deriving DecidableEq

/-- Delegated `is_empty` query of the geometry collaborator. -/
def Geom.is_empty : Geom → Bool
  | .empty => true
  | .point _ => false
  | .lineString pts => pts.isEmpty
  | .polygon ring => ring.isEmpty

/-- Pointwise coordinate transform of a geometry: the external
`shapely.ops.transform` applied with a projection function. It relocates
coordinates but never changes the kind of geometry or its point count. -/
def Geom.mapCoords (f : Coord → Coord) : Geom → Geom
  | .empty => .empty
  | .point c => .point (f c)
  | .lineString pts => .lineString (pts.map f)
  | .polygon ring => .polygon (ring.map f)

/-- Number of coordinate points stored in a geometry. -/
def Geom.pointCount : Geom → Nat
  | .empty => 0
  | .point _ => 1
  | .lineString pts => pts.length
  | .polygon ring => ring.length

/-- Discriminator for the kind of a geometry (0 = empty base geometry,
1 = point, 2 = linestring, 3 = polygon). -/
def Geom.shapeKind : Geom → Nat
  | .empty => 0
  | .point _ => 1
  | .lineString _ => 2
  | .polygon _ => 3

/-- One cell of an object-dtype pandas column: a geometry handle, the missing
marker (`None`), or a non-geometry, non-missing scalar such as an int. -/
inductive Value
  | geom (g : Geom)
  | missing
  | other (n : Int)
deriving DecidableEq

/-- Model of `isinstance(item, BaseGeometry)`. -/
def Value.isGeom : Value → Bool
  | .geom _ => true
  | _ => false

/-- Model of `pd.isna(item)`: true exactly on the missing marker. -/
def Value.isMissing : Value → Bool
  | .missing => true
  | _ => false

/-- A spatial reference descriptor: opaque and equality-comparable. -/
abbrev CRS := String

/-- The Python exceptions raised by the modelled code paths. -/
inductive GeoError
  | valueError
  | typeError
deriving DecidableEq

/-- A plain pandas `Series`: values, index labels and an optional name. -/
structure PlainSeries where
  elements : List Value
  labels : List Int
  name : Option String
deriving DecidableEq

/-- A `GeoSeries`: a pandas series of geometry values together with one `crs`
for the whole sequence and the cached-spatial-index flag (`sindex = true`
means a cached spatial index is present; `_invalidate_sindex` from
`geopandas.base`, modelled from the spec, clears it to `false`). -/
structure GeoSeries where
  elements : List Value
  labels : List Int
  crs : Option CRS
  name : Option String
  sindex : Bool
deriving DecidableEq

/-- What `GeoSeries.__new__` hands back: a plain `Series` (type-discrimination
fallback) or a `GeoSeries`. -/
inductive SeriesResult
  | plain (s : PlainSeries)
  | geo (g : GeoSeries)
deriving DecidableEq

/-- True when the constructor produced a `GeoSeries`. -/
def SeriesResult.isGeo : SeriesResult → Bool
  | .geo _ => true
  | .plain _ => false

/-- The delegated emptiness query `x.is_empty` as the fallible call it is in
Python: it answers on geometry handles and raises (`AttributeError`) on any
other value. -/
def isEmptyQuery : Value → Except Unit Bool
  | .geom g => .ok g.is_empty
  | _ => .error ()

/-- Model of `_is_empty` (geoseries.py line 21): try `x.is_empty`, and on any exception
return `False`. -/
def _is_empty (x : Value) : Bool :=
  match isEmptyQuery x with
  | .ok b => b
  | .error _ => false

/-- Model of `_validate_geometry_data` (geoseries.py line 28): raise `TypeError` unless
every item is a geometry handle or missing. -/
def _validate_geometry_data (data : List Value) : Except GeoError Unit :=
  if data.all (fun item => item.isGeom || item.isMissing) then .ok ()
  else .error .typeError

/-- Dtype inference of the pandas `Series` constructor on a list of cells,
restricted to the cell kinds of `Value`: the dtype is `object` when some cell
is a geometry object, or when the data is nonempty and all-`None`; a sequence
of numbers (with or without interspersed missing values) gets a numeric
dtype. -/
def seriesDtypeIsObject (data : List Value) : Bool :=
  data.any Value.isGeom || (!data.isEmpty && data.all Value.isMissing)

/-- The default `RangeIndex` labels `0, 1, ..., n-1`. -/
def defaultLabels (n : Nat) : List Int :=
  (List.range n).map Int.ofNat

/-- The data argument accepted by the modelled constructor: a scalar geometry
or a sequence of cells. -/
inductive GSInput
  | scalar (g : Geom)
  | seq (data : List Value)

/-- Model of `GeoSeries.__new__` (geoseries.py lines 68-101): expand a scalar geometry
to the index length, build the plain series, return it unchanged when its
dtype is not `object` and it is nonempty (after coercing an empty series to
object dtype), return it unchanged when geometry validation raises
`TypeError`, and otherwise produce a `GeoSeries` carrying `crs` with its
cached spatial index invalidated. -/
def geoSeriesNew (data : GSInput) (index : Option (List Int)) (crs : Option CRS)
    (name : Option String) : SeriesResult :=
  let d : List Value :=
    match data with
    | .scalar g =>
      match index with
      | some idx => List.replicate idx.length (Value.geom g)
      | none => [Value.geom g]
    | .seq l => l
  let labels : List Int :=
    match index with
    | some idx => idx
    | none => defaultLabels d.length
  let s : PlainSeries := ⟨d, labels, name⟩
  if !seriesDtypeIsObject d && !d.isEmpty then .plain s
  else
    match _validate_geometry_data d with
    | .error _ => .plain s
    | .ok _ => .geo ⟨d, labels, crs, name, false⟩

/-- Model of `GeoSeries._wrapped_pandas_method` (geoseries.py lines 177-184), applied
to an inherited pandas method whose result is a same-element-type series given
here by its values and labels: the result keeps the name the pandas method
propagated, is retagged as a `GeoSeries`, copies `crs` from the receiver, and
has its cached spatial index invalidated. -/
def wrapSeries (s : GeoSeries) (elements : List Value) (labels : List Int) :
    GeoSeries :=
  { elements := elements
    labels := labels
    crs := s.crs
    name := s.name
    sindex := false }

/-- Model of `GeoSeries.__getitem__` (geoseries.py line 186) with a positional slice
key `start:stop`, routed through `_wrapped_pandas_method`. -/
def GeoSeries.getitemSlice (s : GeoSeries) (start stop : Nat) : GeoSeries :=
  wrapSeries s ((s.elements.drop start).take (stop - start))
    ((s.labels.drop start).take (stop - start))

/-- Model of `GeoSeries.take` (geoseries.py line 192): select the cells at the given
positions, routed through `_wrapped_pandas_method`. The pandas method raises
on an out-of-bounds position; theorems about this definition assume
in-bounds positions. -/
def GeoSeries.take (s : GeoSeries) (positions : List Nat) : GeoSeries :=
  wrapSeries s (positions.map (fun p => s.elements.getD p Value.missing))
    (positions.map (fun p => s.labels.getD p 0))

/-- Model of `GeoSeries.sort_index` (geoseries.py line 189): sort the label/value
pairs by label, routed through `_wrapped_pandas_method`. -/
def GeoSeries.sort_index (s : GeoSeries) : GeoSeries :=
  let sorted := (s.labels.zip s.elements).insertionSort
    (fun a b => a.1 ≤ b.1)
  wrapSeries s (sorted.map Prod.snd) (sorted.map Prod.fst)

/-- Model of `GeoSeries.__finalize__` (geoseries.py lines 202-207): copy the
`_metadata` attributes (`name` and `crs`) from `other` onto the receiver. -/
def GeoSeries.finalize (self other : GeoSeries) : GeoSeries :=
  { self with name := other.name, crs := other.crs }

/-- Model of `GeoSeries.copy` (geoseries.py lines 209-224): rebuild from a copy of the
values with the same index and name through `GeoSeries.__new__`, then
`__finalize__` from the receiver (restoring `name` and `crs`). -/
def GeoSeries.copy (s : GeoSeries) : SeriesResult :=
  match geoSeriesNew (.seq s.elements) (some s.labels) none s.name with
  | .geo g => .geo (g.finalize s)
  | .plain p => .plain p

/-- Model of `GeoSeries.isna` (geoseries.py lines 226-243): the elementwise OR of the
pandas null test (`super().isnull()`, true exactly on the missing marker) and
the best-effort emptiness test `_is_empty`, as a positionally aligned boolean
series. -/
def GeoSeries.isna (s : GeoSeries) : List Bool :=
  let non_geo_null := s.elements.map Value.isMissing
  let val := s.elements.map _is_empty
  non_geo_null.zipWith (fun a b => a || b) val

/-- The pandas `Series.fillna` on an object column: replace exactly the cells
that are NA to pandas (the missing marker) by `v`. -/
def seriesFillna (elements : List Value) (v : Value) : List Value :=
  elements.map (fun e => if e.isMissing then v else e)

/-- Model of `GeoSeries.fillna` (geoseries.py lines 270-279): default the fill value to
the empty geometry constant `BaseGeometry()`, then defer to the pandas
`fillna`. -/
def GeoSeries.fillna (s : GeoSeries) (value : Option Value) : GeoSeries :=
  let v := match value with
    | none => Value.geom Geom.empty
    | some v => v
  { s with elements := seriesFillna s.elements v }

/-- The four pandas join modes accepted by `align`. -/
inductive JoinMode
  | outer
  | inner
  | left
  | right

/-- The joined label list produced by the pandas index join. -/
def joinLabels : JoinMode → List Int → List Int → List Int
  | .outer, a, b => a ++ b.filter (fun l => !a.contains l)
  | .inner, a, b => a.filter (fun l => b.contains l)
  | .left, a, _ => a
  | .right, _, b => b

/-- Label lookup in a series given by parallel label and value lists: the
value at the first position carrying the label, if any. -/
def lookupLabel (labels : List Int) (elements : List Value) (l : Int) :
    Option Value :=
  match labels, elements with
  | a :: as, v :: vs => if a = l then some v else lookupLabel as vs l
  | _, _ => none

/-- The pandas reindexing step of `align`: for each joined label take the
series' value at that label, or `fill` where the label has no counterpart. -/
def reindexSeries (s : GeoSeries) (joined : List Int) (fill : Value) :
    GeoSeries :=
  { s with
    labels := joined
    elements := joined.map (fun l => (lookupLabel s.labels s.elements l).getD fill) }

/-- Model of `GeoSeries.align` (geoseries.py lines 281-289): default the fill value to
the empty geometry constant `BaseGeometry()`, then defer to the pandas label
join and reindexing of both series. -/
def GeoSeries.align (s other : GeoSeries) (join : JoinMode)
    (fill_value : Option Value) : GeoSeries × GeoSeries :=
  let fill := match fill_value with
    | none => Value.geom Geom.empty
    | some v => v
  let joined := joinLabels join s.labels other.labels
  (reindexSeries s joined fill, reindexSeries other joined fill)

/-- Geometric (topological) equality, delegated to the external geometry
collaborator; on the exact-coordinate handles modelled here it is structural
equality. -/
def geomEquals (a b : Geom) : Bool :=
  a = b

/-- Modelled from the spec: the geometry domain's own `contains` relation
(delegated to the external geometry collaborator, absent from the snippet),
given here for the case the development uses: an axis-aligned rectangular
polygon contains a point lying within its coordinate bounds. -/
def geomContains : Geom → Geom → Bool
  | .polygon (c :: cs), .point (x, y) =>
    let xs := (c :: cs).map Prod.fst
    let ys := (c :: cs).map Prod.snd
    decide (xs.foldr min c.1 ≤ x) && decide (x ≤ xs.foldr max c.1) &&
    decide (ys.foldr min c.2 ≤ y) && decide (y ≤ ys.foldr max c.2)
  | _, _ => false

/-- Model of `GeoSeries.geom_equals` from `geopandas.base`, modelled from the spec:
the elementwise test whether each stored geometry is geometrically equal to
`other` (a non-geometry cell compares false). -/
def GeoSeries.geom_equals (s : GeoSeries) (other : Geom) : List Bool :=
  s.elements.map (fun e =>
    match e with
    | .geom h => geomEquals h other
    | _ => false)

/-- Model of `GeoSeries.__contains__` (geoseries.py lines 291-301): for a geometry
argument, whether any element is geometrically equal to it; for any other
argument, `False`. -/
def GeoSeries.containsTest (s : GeoSeries) (other : Value) : Bool :=
  match other with
  | .geom g => (s.geom_equals g).any id
  | _ => false

/-- Model of `fiona.crs.from_epsg`, the external resolver of a numeric EPSG code into
a spatial reference descriptor (opaque to the core). -/
def fromEpsg (code : Nat) : CRS :=
  "epsg:" ++ toString code

/-- The external coordinate transform applied to one cell: a present geometry
has the projection applied pointwise to its coordinates (`shapely.ops.transform`,
which returns empty geometries unchanged and never alters topology); per the
spec's reprojection engine, a missing-marker cell is left untouched. -/
def transformValue (project : Coord → Coord) : Value → Value
  | .geom g => .geom (g.mapCoords project)
  | v => v

/-- Model of `GeoSeries.to_crs` (geoseries.py lines 317-359): raise `ValueError` when
the receiver has no `crs`; resolve the destination from `crs` or, failing
that, from `epsg` (raising `TypeError` when neither is supplied); apply the
transform built by the projection collaborator (passed here as `project`) to
every cell; retag the result as a `GeoSeries`, set its `crs` to the
destination descriptor and invalidate its cached spatial index. -/
def GeoSeries.to_crs (s : GeoSeries) (project : Coord → Coord)
    (crs : Option CRS) (epsg : Option Nat) : Except GeoError GeoSeries :=
  match s.crs with
  | none => .error .valueError
  | some _ =>
    match crs, epsg with
    | none, none => .error .typeError
    | none, some code =>
      .ok { elements := s.elements.map (transformValue project)
            labels := s.labels
            crs := some (fromEpsg code)
            name := s.name
            sindex := false }
    | some c, _ =>
      .ok { elements := s.elements.map (transformValue project)
            labels := s.labels
            crs := some c
            name := s.name
            sindex := false }

/-- The contract of a label-preserving derived operation (spec P1): the
result `t` keeps the receiver's `crs` and `name`, its cached spatial index is
invalidated, its labels and elements stay aligned, and every label/value pair
of `t` is a label/value pair of `s` at some position. -/
def derivedInvariant (s t : GeoSeries) : Prop :=
  t.crs = s.crs ∧ t.name = s.name ∧ t.sindex = false ∧
  t.labels.length = t.elements.length ∧
  ∀ i, i < t.elements.length → ∃ j, j < s.elements.length ∧
    t.labels[i]? = s.labels[j]? ∧ t.elements[i]? = s.elements[j]?

/-- Validity of a geometry column (invariant I2): every cell is a geometry
handle or the missing marker. -/
def validColumn (data : List Value) : Bool :=
  data.all (fun item => item.isGeom || item.isMissing)

/-- A concrete axis-aligned square polygon, used to separate sequence
membership from geometric containment. -/
def unitSquare : Geom :=
  .polygon [(0, 0), (10, 0), (10, 10), (0, 10)]

/-- A one-element `GeoSeries` holding `unitSquare`. -/
def squareSeries : GeoSeries :=
  ⟨[.geom unitSquare], [0], none, none, false⟩

/-! ### Helper lemmas -/

theorem mapCoords_shapeKind (f : Coord → Coord) (g : Geom) :
    (g.mapCoords f).shapeKind = g.shapeKind := by
  cases g <;> rfl

theorem mapCoords_pointCount (f : Coord → Coord) (g : Geom) :
    (g.mapCoords f).pointCount = g.pointCount := by
  cases g <;> simp [Geom.mapCoords, Geom.pointCount]

theorem validColumn_dtype_object {d : List Value} (hv : validColumn d = true)
    (hne : d ≠ []) : seriesDtypeIsObject d = true := by
  by_cases hg : d.any Value.isGeom = true
  · simp [seriesDtypeIsObject, hg]
  · have hngeom : ∀ x ∈ d, x.isGeom = false := by
      intro x hx
      by_contra hc
      exact hg (List.any_eq_true.mpr ⟨x, hx, by simpa using hc⟩)
    have hall : d.all Value.isMissing = true := by
      rw [List.all_eq_true]
      intro x hx
      have h1 := List.all_eq_true.mp hv x hx
      rw [hngeom x hx] at h1
      simpa using h1
    simp [seriesDtypeIsObject, hall, List.isEmpty_eq_false.mpr hne]

theorem geoSeriesNew_valid (elements : List Value) (labels : List Int)
    (crs : Option CRS) (name : Option String) (hv : validColumn elements = true) :
    geoSeriesNew (.seq elements) (some labels) crs name =
      .geo ⟨elements, labels, crs, name, false⟩ := by
  have hv' : elements.all (fun item => item.isGeom || item.isMissing) = true := hv
  by_cases hne : elements = []
  · subst hne; rfl
  · have hd := validColumn_dtype_object hv hne
    simp [geoSeriesNew, hd, _validate_geometry_data, hv']

/-! ### Claim theorems -/

/-- C10: constructing from a single scalar geometry with a label index of
length `n` yields a `GeoSeries` of `n` copies of that geometry at those
labels; with no index supplied the result has length 1 (label 0). -/
theorem scalar_constructor_replicates (g : Geom) (idx : List Int)
    (crs : Option CRS) (name : Option String) :
    geoSeriesNew (.scalar g) (some idx) crs name =
      .geo ⟨List.replicate idx.length (Value.geom g), idx, crs, name, false⟩ ∧
    geoSeriesNew (.scalar g) none crs name =
      .geo ⟨[Value.geom g], [0], crs, name, false⟩ := by
  have hv : validColumn (List.replicate idx.length (Value.geom g)) = true := by
    rw [validColumn, List.all_eq_true]
    intro x hx
    rw [(List.mem_replicate.mp hx).2]
    rfl
  constructor
  · exact geoSeriesNew_valid (List.replicate idx.length (Value.geom g)) idx crs name hv
  · rfl

/-- C8 counterexample: constructing from an empty input sequence yields a
`GeoSeries` (the constructor coerces the empty series to object dtype and
validation passes vacuously), not the plain sequence type the claim
states. -/
theorem empty_constructor_returns_geoseries :
    (geoSeriesNew (.seq []) none none none).isGeo = true := by
  rfl

/-- C8 amended: constructing from an empty input sequence is treated as
vacuously valid and geometry-typed: the constructor returns an empty
`GeoSeries` carrying the supplied `crs` and `name`, with its cached spatial
index invalidated. -/
theorem empty_constructor_amended (crs : Option CRS) (name : Option String) :
    geoSeriesNew (.seq []) none crs name = .geo ⟨[], [], crs, name, false⟩ := by
  rfl

/-- C2: for every candidate input sequence containing at least one element
that is neither a geometry handle nor the missing marker, the constructor
returns the plain series type with the original values (and name)
unmodified, rather than raising. -/
theorem constructor_fallback_to_plain (data : List Value)
    (index : Option (List Int)) (crs : Option CRS) (name : Option String)
    (v : Value) (hv : v ∈ data) (hg : v.isGeom = false)
    (hm : v.isMissing = false) :
    ∃ p, geoSeriesNew (.seq data) index crs name = .plain p ∧
      p.elements = data ∧ p.name = name := by
  obtain ⟨n, rfl⟩ : ∃ n, v = Value.other n := by
    cases v
    · exact absurd hg (by simp [Value.isGeom])
    · exact absurd hm (by simp [Value.isMissing])
    · exact ⟨_, rfl⟩
  have hne : data ≠ [] := by
    rintro rfl
    exact absurd hv (List.not_mem_nil _)
  have hinv : data.all (fun item => item.isGeom || item.isMissing) = false := by
    rw [List.all_eq_false]
    exact ⟨Value.other n, hv, by simp [Value.isGeom, Value.isMissing]⟩
  by_cases hd : seriesDtypeIsObject data = true
  · refine ⟨⟨data,
      match index with | some idx => idx | none => defaultLabels data.length,
      name⟩, ?_, rfl, rfl⟩
    simp [geoSeriesNew, hd, _validate_geometry_data, hinv]
  · refine ⟨⟨data,
      match index with | some idx => idx | none => defaultLabels data.length,
      name⟩, ?_, rfl, rfl⟩
    simp [geoSeriesNew, Bool.eq_false_iff.mpr hd,
      List.isEmpty_eq_false.mpr hne]

/-- C2 witness: a sequence holding one integer and one geometry falls back to
a plain series with the original values. -/
theorem constructor_fallback_to_plain_witness :
    Value.other 1 ∈ [Value.other 1, Value.geom (.point (1, 1))] ∧
    ∃ p, geoSeriesNew (.seq [Value.other 1, Value.geom (.point (1, 1))])
        none none none = .plain p ∧
      p.elements = [Value.other 1, Value.geom (.point (1, 1))] ∧
      p.name = none := by
  exact ⟨by decide,
    constructor_fallback_to_plain [Value.other 1, Value.geom (.point (1, 1))]
      none none none (Value.other 1) (by decide) (by decide) (by decide)⟩

/-- C4: reprojecting a `GeoSeries` whose `crs` is unset fails with the
configuration error (`ValueError`, "Cannot transform naive geometries"), for
any destination arguments, producing no transformed sequence. -/
theorem to_crs_requires_crs (s : GeoSeries) (h : s.crs = none)
    (project : Coord → Coord) (crs : Option CRS) (epsg : Option Nat) :
    s.to_crs project crs epsg = .error .valueError := by
  unfold GeoSeries.to_crs
  rw [h]

/-- C4 witness: three points with no CRS; reprojection raises the
configuration error. -/
theorem to_crs_requires_crs_witness :
    (GeoSeries.mk [.geom (.point (1, 1)), .geom (.point (2, 2)),
        .geom (.point (3, 3))] [0, 1, 2] none none false).crs = none ∧
    (GeoSeries.mk [.geom (.point (1, 1)), .geom (.point (2, 2)),
        .geom (.point (3, 3))] [0, 1, 2] none none false).to_crs
      (fun c => c) (some "epsg:3857") none = .error .valueError :=
  ⟨rfl, to_crs_requires_crs
    (GeoSeries.mk [.geom (.point (1, 1)), .geom (.point (2, 2)),
      .geom (.point (3, 3))] [0, 1, 2] none none false) rfl
    (fun c => c) (some "epsg:3857") none⟩

/-- C3: reprojecting a `GeoSeries` with a set `crs` succeeds, applies the
coordinate transform pointwise to every present geometry (preserving its kind
and point count), leaves missing markers untouched, and yields a new series
with the same labels and name, `crs` equal to the destination descriptor, and
the cached spatial index invalidated (the receiver itself, a pure value, is
untouched). -/
theorem to_crs_spec (s : GeoSeries) (a : CRS) (h : s.crs = some a)
    (project : Coord → Coord) (dst : CRS) :
    ∃ t, s.to_crs project (some dst) none = .ok t ∧
      t.labels = s.labels ∧ t.name = s.name ∧ t.crs = some dst ∧
      t.sindex = false ∧ t.elements.length = s.elements.length ∧
      (∀ i : Nat, s.elements[i]? = some Value.missing →
        t.elements[i]? = some Value.missing) ∧
      (∀ (i : Nat) (g : Geom), s.elements[i]? = some (Value.geom g) →
        t.elements[i]? = some (Value.geom (g.mapCoords project)) ∧
        (g.mapCoords project).shapeKind = g.shapeKind ∧
        (g.mapCoords project).pointCount = g.pointCount) := by
  unfold GeoSeries.to_crs
  rw [h]
  refine ⟨_, rfl, rfl, rfl, rfl, rfl, by simp, ?_, ?_⟩
  · intro i hi
    simp [List.getElem?_map, hi, transformValue]
  · intro i g hi
    exact ⟨by simp [List.getElem?_map, hi, transformValue],
      mapCoords_shapeKind project g, mapCoords_pointCount project g⟩

/-- C3 witness: three points with CRS "epsg:4326" reprojected to
"epsg:3857". -/
theorem to_crs_spec_witness :
    (GeoSeries.mk [.geom (.point (1, 1)), .geom (.point (2, 2)),
        .geom (.point (3, 3))] [0, 1, 2] (some "epsg:4326") none
        false).crs = some "epsg:4326" ∧
    ∃ t, (GeoSeries.mk [.geom (.point (1, 1)), .geom (.point (2, 2)),
        .geom (.point (3, 3))] [0, 1, 2] (some "epsg:4326") none
        false).to_crs (fun c => (2 * c.1, 2 * c.2)) (some "epsg:3857") none =
          .ok t ∧
      t.labels = [0, 1, 2] ∧ t.name = none ∧ t.crs = some "epsg:3857" ∧
      t.sindex = false ∧ t.elements.length = 3 ∧
      (∀ i : Nat, ([Value.geom (.point (1, 1)), Value.geom (.point (2, 2)),
          Value.geom (.point (3, 3))])[i]? = some Value.missing →
        t.elements[i]? = some Value.missing) ∧
      (∀ (i : Nat) (g : Geom), ([Value.geom (.point (1, 1)), Value.geom (.point (2, 2)),
          Value.geom (.point (3, 3))])[i]? = some (Value.geom g) →
        t.elements[i]? =
          some (Value.geom (g.mapCoords (fun c => (2 * c.1, 2 * c.2)))) ∧
        (g.mapCoords (fun c => (2 * c.1, 2 * c.2))).shapeKind = g.shapeKind ∧
        (g.mapCoords (fun c => (2 * c.1, 2 * c.2))).pointCount =
          g.pointCount) :=
  ⟨rfl, to_crs_spec
    (GeoSeries.mk [.geom (.point (1, 1)), .geom (.point (2, 2)),
      .geom (.point (3, 3))] [0, 1, 2] (some "epsg:4326") none false)
    "epsg:4326" rfl (fun c => (2 * c.1, 2 * c.2)) "epsg:3857"⟩

/-- C5: `fillna` keeps the metadata and length, replaces exactly the
missing-marker cells with the supplied value — a present cell, in particular
a present-but-empty geometry, is left unchanged — and defaults the fill to
the empty geometry constant (whose `is_empty` is true). -/
theorem fillna_spec (s : GeoSeries) (value : Option Value) :
    (s.fillna value).crs = s.crs ∧ (s.fillna value).labels = s.labels ∧
    (s.fillna value).name = s.name ∧
    (s.fillna value).elements.length = s.elements.length ∧
    (∀ i : Nat, s.elements[i]? = some Value.missing →
      (s.fillna value).elements[i]? =
        some (value.getD (Value.geom Geom.empty))) ∧
    (∀ (i : Nat) (v : Value), s.elements[i]? = some v → v.isMissing = false →
      (s.fillna value).elements[i]? = some v) ∧
    Geom.empty.is_empty = true := by
  refine ⟨rfl, rfl, rfl, by simp [GeoSeries.fillna, seriesFillna], ?_, ?_, rfl⟩
  · intro i hi
    cases value <;>
      simp [GeoSeries.fillna, seriesFillna, List.getElem?_map, hi,
        Value.isMissing]
  · intro i v hi hv
    cases value <;>
      simp [GeoSeries.fillna, seriesFillna, List.getElem?_map, hi, hv]

/-- C5 witness: a series with a point, a missing marker and an empty
geometry; the default fill replaces only the missing marker. -/
theorem fillna_spec_witness :
    ([Value.geom (.point (0, 0)), Value.missing,
        Value.geom Geom.empty])[1]? = some Value.missing ∧
    ((GeoSeries.mk [.geom (.point (0, 0)), .missing, .geom Geom.empty]
        [0, 1, 2] none none false).fillna none).elements[1]? =
      some (Value.geom Geom.empty) ∧
    ((GeoSeries.mk [.geom (.point (0, 0)), .missing, .geom Geom.empty]
        [0, 1, 2] none none false).fillna none).elements[2]? =
      some (Value.geom Geom.empty) := by
  have h := fillna_spec
    (GeoSeries.mk [.geom (.point (0, 0)), .missing, .geom Geom.empty]
      [0, 1, 2] none none false) none
  exact ⟨rfl, h.2.2.2.2.1 1 rfl, h.2.2.2.2.2.1 2 (Value.geom Geom.empty) rfl rfl⟩

theorem zipWith_or_map (l : List Value) :
    List.zipWith (fun a b => a || b) (l.map Value.isMissing)
      (l.map _is_empty) = l.map (fun v => v.isMissing || _is_empty v) := by
  induction l with
  | nil => rfl
  | cons x xs ih => simp [ih]

theorem isna_eq_map (s : GeoSeries) :
    s.isna = s.elements.map (fun v => v.isMissing || _is_empty v) := by
  unfold GeoSeries.isna
  exact zipWith_or_map s.elements

/-- C6: `isna` is a positionally aligned boolean sequence that is true at a
cell exactly when the cell is the missing marker or its delegated emptiness
query answers true; when the emptiness query raises, the exception is
swallowed and the cell counts as not empty, so `isna` (a total function
here) never propagates an error. -/
theorem isna_spec (s : GeoSeries) :
    s.isna.length = s.elements.length ∧
    (∀ (i : Nat) (v : Value), s.elements[i]? = some v →
      s.isna[i]? = some (v.isMissing ||
        match isEmptyQuery v with
        | .ok b => b
        | .error _ => false)) ∧
    (∀ v : Value, isEmptyQuery v = .error () → _is_empty v = false) := by
  refine ⟨by simp [isna_eq_map], ?_, ?_⟩
  · intro i v hi
    rw [isna_eq_map]
    simp only [List.getElem?_map, hi, Option.map_some]
    rfl
  · intro v hv
    simp [_is_empty, hv]

/-- C6 witness: on a point, a missing marker, an empty geometry and a foreign
int cell, `isna` answers false, true, true, false — the query error on the
int is swallowed. -/
theorem isna_spec_witness :
    ([Value.geom (.point (1, 1)), Value.missing, Value.geom Geom.empty,
        Value.other 7])[3]? = some (Value.other 7) ∧
    (GeoSeries.mk [.geom (.point (1, 1)), .missing, .geom Geom.empty,
        .other 7] [0, 1, 2, 3] none none false).isna[3]? = some false ∧
    (GeoSeries.mk [.geom (.point (1, 1)), .missing, .geom Geom.empty,
        .other 7] [0, 1, 2, 3] none none false).isna[2]? = some true ∧
    isEmptyQuery (Value.other 7) = .error () ∧
    _is_empty (Value.other 7) = false := by
  have h := isna_spec (GeoSeries.mk [.geom (.point (1, 1)), .missing,
    .geom Geom.empty, .other 7] [0, 1, 2, 3] none none false)
  refine ⟨rfl, ?_, ?_, rfl, h.2.2 (Value.other 7) rfl⟩
  · simpa using h.2.1 3 (Value.other 7) rfl
  · simpa using h.2.1 2 (Value.geom Geom.empty) rfl

theorem lookupLabel_eq_none {labels : List Int} {elements : List Value}
    {l : Int} (h : l ∉ labels) : lookupLabel labels elements l = none := by
  induction labels generalizing elements with
  | nil => cases elements <;> rfl
  | cons a as ih =>
    cases elements with
    | nil => rfl
    | cons v vs =>
      have hne : a ≠ l := fun hc => h (hc ▸ List.mem_cons_self a as)
      simp only [lookupLabel, if_neg hne]
      exact ih (fun hc => h (List.mem_cons_of_mem a hc))

/-- C7: `align` with no explicit fill value returns two series of equal
length over the joined label list; at every position whose label has no
counterpart in the series being reindexed, the cell is the empty geometry
constant — a real geometry, not the missing marker. -/
theorem align_spec (s other : GeoSeries) (join : JoinMode) :
    (s.align other join none).1.labels =
      joinLabels join s.labels other.labels ∧
    (s.align other join none).2.labels = (s.align other join none).1.labels ∧
    (s.align other join none).1.elements.length =
      (s.align other join none).1.labels.length ∧
    (s.align other join none).2.elements.length =
      (s.align other join none).2.labels.length ∧
    (∀ (i : Nat) (l : Int), (s.align other join none).1.labels[i]? = some l →
      l ∉ s.labels →
      (s.align other join none).1.elements[i]? =
        some (Value.geom Geom.empty)) ∧
    (∀ (i : Nat) (l : Int), (s.align other join none).2.labels[i]? = some l →
      l ∉ other.labels →
      (s.align other join none).2.elements[i]? =
        some (Value.geom Geom.empty)) ∧
    (Value.geom Geom.empty).isMissing = false := by
  refine ⟨rfl, rfl, by simp [GeoSeries.align, reindexSeries],
    by simp [GeoSeries.align, reindexSeries], ?_, ?_, rfl⟩
  · intro i l hi hl
    simp only [GeoSeries.align, reindexSeries] at hi ⊢
    rw [List.getElem?_map, hi]
    simp [lookupLabel_eq_none hl]
  · intro i l hi hl
    simp only [GeoSeries.align, reindexSeries] at hi ⊢
    rw [List.getElem?_map, hi]
    simp [lookupLabel_eq_none hl]

/-- C7 witness: two series with overlapping labels, outer-aligned; the
non-overlapping positions hold the empty geometry constant. -/
theorem align_spec_witness :
    ((GeoSeries.mk [.geom (.point (1, 1)), .geom (.point (2, 2))] [0, 1]
        none none false).align
      (GeoSeries.mk [.geom (.point (9, 9)), .geom (.point (8, 8))] [1, 2]
        none none false) .outer none).1.labels = [0, 1, 2] ∧
    ((GeoSeries.mk [.geom (.point (1, 1)), .geom (.point (2, 2))] [0, 1]
        none none false).align
      (GeoSeries.mk [.geom (.point (9, 9)), .geom (.point (8, 8))] [1, 2]
        none none false) .outer none).1.elements[2]? =
      some (Value.geom Geom.empty) ∧
    ((GeoSeries.mk [.geom (.point (1, 1)), .geom (.point (2, 2))] [0, 1]
        none none false).align
      (GeoSeries.mk [.geom (.point (9, 9)), .geom (.point (8, 8))] [1, 2]
        none none false) .outer none).2.elements[0]? =
      some (Value.geom Geom.empty) := by
  have h := align_spec
    (GeoSeries.mk [.geom (.point (1, 1)), .geom (.point (2, 2))] [0, 1]
      none none false)
    (GeoSeries.mk [.geom (.point (9, 9)), .geom (.point (8, 8))] [1, 2]
      none none false) .outer
  exact ⟨by decide, h.2.2.2.2.1 2 2 (by decide) (by decide),
    h.2.2.2.2.2.1 0 0 (by decide) (by decide)⟩

/-- C9: the membership test over a `GeoSeries` is true for a geometry exactly
when some element is geometrically equal to it, and false for any
non-geometry value; it is not the geometric containment predicate: the
square series geometrically contains the point (5,5) but the membership test
on it answers false. -/
theorem contains_is_equality_test (s : GeoSeries) :
    (∀ g : Geom, s.containsTest (.geom g) = true ↔
      ∃ h : Geom, Value.geom h ∈ s.elements ∧ geomEquals h g = true) ∧
    (∀ n : Int, s.containsTest (.other n) = false) ∧
    s.containsTest .missing = false ∧
    geomContains unitSquare (.point (5, 5)) = true ∧
    squareSeries.containsTest (.geom (.point (5, 5))) = false := by
  refine ⟨?_, fun _ => rfl, rfl, by decide, by decide⟩
  intro g
  constructor
  · intro hc
    simp only [GeoSeries.containsTest, GeoSeries.geom_equals,
      List.any_eq_true, List.mem_map] at hc
    obtain ⟨b, ⟨e, he, hb⟩, hid⟩ := hc
    cases e with
    | geom hgeo =>
      refine ⟨hgeo, he, ?_⟩
      rw [← hb] at hid
      simpa using hid
    | missing => rw [← hb] at hid; simp at hid
    | other n => rw [← hb] at hid; simp at hid
  · rintro ⟨hgeo, hmem, heq⟩
    simp only [GeoSeries.containsTest, GeoSeries.geom_equals,
      List.any_eq_true, List.mem_map]
    exact ⟨true, ⟨Value.geom hgeo, hmem, by simp [heq]⟩, rfl⟩

/-- C9 witness: a series holding the point (5,5) contains that point. -/
theorem contains_is_equality_test_witness :
    (GeoSeries.mk [.geom (.point (5, 5))] [0] none none
      false).containsTest (.geom (.point (5, 5))) = true := by
  exact ((contains_is_equality_test
    (GeoSeries.mk [.geom (.point (5, 5))] [0] none none false)).1
    (.point (5, 5))).mpr ⟨.point (5, 5), by decide, by decide⟩

theorem derivedInvariant_slice (s : GeoSeries)
    (hlen : s.labels.length = s.elements.length) (start stop : Nat) :
    derivedInvariant s (s.getitemSlice start stop) := by
  refine ⟨rfl, rfl, rfl, ?_, ?_⟩
  · show ((s.labels.drop start).take (stop - start)).length =
      ((s.elements.drop start).take (stop - start)).length
    simp [hlen]
  · intro i hi
    have hbe : i < ((s.elements.drop start).take (stop - start)).length := hi
    have hj : start + i < s.elements.length := by
      simp only [List.length_take, List.length_drop] at hbe
      omega
    have hjl : start + i < s.labels.length := by rw [hlen]; exact hj
    have hbl : i < ((s.labels.drop start).take (stop - start)).length := by
      simp only [List.length_take, List.length_drop, hlen]
      simpa only [List.length_take, List.length_drop] using hbe
    refine ⟨start + i, hj, ?_, ?_⟩
    · show ((s.labels.drop start).take (stop - start))[i]? =
        s.labels[start + i]?
      rw [List.getElem?_eq_getElem hbl, List.getElem?_eq_getElem hjl]
      rw [List.getElem_take, List.getElem_drop]
    · show ((s.elements.drop start).take (stop - start))[i]? =
        s.elements[start + i]?
      rw [List.getElem?_eq_getElem hbe, List.getElem?_eq_getElem hj]
      rw [List.getElem_take, List.getElem_drop]

theorem derivedInvariant_take (s : GeoSeries)
    (hlen : s.labels.length = s.elements.length) (ps : List Nat)
    (hps : ∀ p ∈ ps, p < s.elements.length) :
    derivedInvariant s (s.take ps) := by
  refine ⟨rfl, rfl, rfl, by simp [GeoSeries.take, wrapSeries], ?_⟩
  intro i hi
  have hip : i < ps.length := by
    simpa [GeoSeries.take, wrapSeries] using hi
  have hj : ps[i] < s.elements.length := hps ps[i] (List.getElem_mem hip)
  have hjl : ps[i] < s.labels.length := by rw [hlen]; exact hj
  refine ⟨ps[i], hj, ?_, ?_⟩
  · show (ps.map (fun p => s.labels.getD p 0))[i]? = s.labels[ps[i]]?
    rw [List.getElem?_map, List.getElem?_eq_getElem hip,
      List.getElem?_eq_getElem hjl]
    show some (s.labels.getD ps[i] 0) = some s.labels[ps[i]]
    rw [List.getD_eq_getElem s.labels 0 hjl]
  · show (ps.map (fun p => s.elements.getD p Value.missing))[i]? =
      s.elements[ps[i]]?
    rw [List.getElem?_map, List.getElem?_eq_getElem hip,
      List.getElem?_eq_getElem hj]
    show some (s.elements.getD ps[i] Value.missing) = some s.elements[ps[i]]
    rw [List.getD_eq_getElem s.elements Value.missing hj]

theorem derivedInvariant_sort_index (s : GeoSeries)
    (hlen : s.labels.length = s.elements.length) :
    derivedInvariant s s.sort_index := by
  refine ⟨rfl, rfl, rfl, by simp [GeoSeries.sort_index, wrapSeries], ?_⟩
  intro i hi
  have hi' : i < ((s.labels.zip s.elements).insertionSort
      (fun a b => a.1 ≤ b.1)).length := by
    simpa [GeoSeries.sort_index, wrapSeries] using hi
  have hmem : ((s.labels.zip s.elements).insertionSort
      (fun a b => a.1 ≤ b.1))[i] ∈ s.labels.zip s.elements :=
    (List.perm_insertionSort (fun a b => a.1 ≤ b.1)
      (s.labels.zip s.elements)).mem_iff.mp (List.getElem_mem hi')
  obtain ⟨j, hj, hjeq⟩ := List.mem_iff_getElem.mp hmem
  have hjz : j < s.elements.length := by
    rw [List.length_zip, hlen] at hj
    exact lt_of_lt_of_le hj (min_le_right _ _)
  have hjl : j < s.labels.length := by rw [hlen]; exact hjz
  have hzip : (s.labels.zip s.elements)[j] = (s.labels[j], s.elements[j]) :=
    List.getElem_zip
  refine ⟨j, hjz, ?_, ?_⟩
  · have hil : i < (((s.labels.zip s.elements).insertionSort
        (fun a b => a.1 ≤ b.1)).map Prod.fst).length := by
      simpa using hi'
    show (((s.labels.zip s.elements).insertionSort
      (fun a b => a.1 ≤ b.1)).map Prod.fst)[i]? = _
    rw [List.getElem?_eq_getElem hil, List.getElem?_eq_getElem hjl]
    rw [List.getElem_map, ← hjeq, hzip]
  · have hie : i < (((s.labels.zip s.elements).insertionSort
        (fun a b => a.1 ≤ b.1)).map Prod.snd).length := by
      simpa using hi'
    show (((s.labels.zip s.elements).insertionSort
      (fun a b => a.1 ≤ b.1)).map Prod.snd)[i]? = _
    rw [List.getElem?_eq_getElem hie, List.getElem?_eq_getElem hjz]
    rw [List.getElem_map, ← hjeq, hzip]

theorem copy_of_valid (s : GeoSeries) (hvalid : validColumn s.elements = true) :
    s.copy = .geo ⟨s.elements, s.labels, s.crs, s.name, false⟩ := by
  unfold GeoSeries.copy
  rw [geoSeriesNew_valid s.elements s.labels none s.name hvalid]
  rfl

/-- C1: every label-preserving derived operation — positional slice, `take`,
sort by label, `copy` — yields a `GeoSeries` again with the receiver's `crs`
and `name`, with labels and elements taken together from positions of the
receiver, and with the cached spatial index on the result invalidated
(`copy`, which is rebuilt through the validating constructor, moreover always
yields a `GeoSeries` on a valid receiver). -/
theorem derived_ops_preserve_metadata (s : GeoSeries)
    (hlen : s.labels.length = s.elements.length)
    (hvalid : validColumn s.elements = true)
    (start stop : Nat) (ps : List Nat)
    (hps : ∀ p ∈ ps, p < s.elements.length) :
    derivedInvariant s (s.getitemSlice start stop) ∧
    derivedInvariant s (s.take ps) ∧
    derivedInvariant s s.sort_index ∧
    ∃ g, s.copy = SeriesResult.geo g ∧ derivedInvariant s g := by
  refine ⟨derivedInvariant_slice s hlen start stop,
    derivedInvariant_take s hlen ps hps,
    derivedInvariant_sort_index s hlen,
    ⟨s.elements, s.labels, s.crs, s.name, false⟩, copy_of_valid s hvalid, ?_⟩
  exact ⟨rfl, rfl, rfl, hlen, fun i hi => ⟨i, hi, rfl, rfl⟩⟩

/-- C1 witness: the four operations applied to a concrete two-point series
with a set CRS, a name and a cached spatial index. -/
theorem derived_ops_preserve_metadata_witness :
    (GeoSeries.mk [.geom (.point (1, 1)), .geom (.point (2, 2))] [1, 0]
        (some "epsg:4326") (some "n") true).labels.length =
      (GeoSeries.mk [.geom (.point (1, 1)), .geom (.point (2, 2))] [1, 0]
        (some "epsg:4326") (some "n") true).elements.length ∧
    validColumn (GeoSeries.mk [.geom (.point (1, 1)), .geom (.point (2, 2))]
      [1, 0] (some "epsg:4326") (some "n") true).elements = true ∧
    (∀ p ∈ [1, 0], p < (GeoSeries.mk [.geom (.point (1, 1)),
      .geom (.point (2, 2))] [1, 0] (some "epsg:4326") (some "n")
      true).elements.length) ∧
    (derivedInvariant (GeoSeries.mk [.geom (.point (1, 1)),
        .geom (.point (2, 2))] [1, 0] (some "epsg:4326") (some "n") true)
      ((GeoSeries.mk [.geom (.point (1, 1)), .geom (.point (2, 2))] [1, 0]
        (some "epsg:4326") (some "n") true).getitemSlice 0 1) ∧
    derivedInvariant (GeoSeries.mk [.geom (.point (1, 1)),
        .geom (.point (2, 2))] [1, 0] (some "epsg:4326") (some "n") true)
      ((GeoSeries.mk [.geom (.point (1, 1)), .geom (.point (2, 2))] [1, 0]
        (some "epsg:4326") (some "n") true).take [1, 0]) ∧
    derivedInvariant (GeoSeries.mk [.geom (.point (1, 1)),
        .geom (.point (2, 2))] [1, 0] (some "epsg:4326") (some "n") true)
      (GeoSeries.mk [.geom (.point (1, 1)), .geom (.point (2, 2))] [1, 0]
        (some "epsg:4326") (some "n") true).sort_index ∧
    ∃ g, (GeoSeries.mk [.geom (.point (1, 1)), .geom (.point (2, 2))] [1, 0]
        (some "epsg:4326") (some "n") true).copy = SeriesResult.geo g ∧
      derivedInvariant (GeoSeries.mk [.geom (.point (1, 1)),
        .geom (.point (2, 2))] [1, 0] (some "epsg:4326") (some "n") true) g) :=
  ⟨by decide, by decide, by decide,
    derived_ops_preserve_metadata
      (GeoSeries.mk [.geom (.point (1, 1)), .geom (.point (2, 2))] [1, 0]
        (some "epsg:4326") (some "n") true)
      (by decide) (by decide) 0 1 [1, 0] (by decide)⟩
